import Mathlib

/-!
Verification of the art-prompt-generator pipeline (prompt_generator.ipynb).

The notebook defines pydantic models `Audience`, `Idea`, `Ideas` and a
function `brainstorm_ideas` that
  1. issues one chat-completion call (the brainstorm call) whose response
     text becomes the conversation context, and
  2. runs a retry loop (`while num_try < 3`) that issues extractor
     chat-completion calls and tries `Ideas.model_validate_json(response)`,
     returning on the first success, swallowing every validation exception
     with a bare `except: pass`, and raising an exception after the loop.

The embedding below models the chat-completion service as an explicit
client (a function from call index and message content to a response or a
transport error; the index captures the statefulness of the external
service across the strictly sequential calls), models JSON values as an
inductive type, models the json-parse step of `model_validate_json` as an
explicit `parse : String → Option Json` parameter (the behavior of the
external json library on a given response text), and models the pydantic
validation of the `Ideas` schema directly.  The `while` loop is embedded
as a fuel-indexed step function: a result of `none` means the loop is
still running after that many iterations.  Note that the source never
increments `num_try`, and the embedding mirrors that faithfully.
-/

namespace ArtPromptGen

/-- A JSON value, as produced by the json library from a response text. -/
inductive Json where
  | null : Json
  | bool (b : Bool) : Json
  | num (n : Int) : Json
  | str (s : String) : Json
  | arr (items : List Json) : Json
  | obj (fields : List (String × Json)) : Json

/-- First-match lookup of a key in the field list of a JSON object.
JSON objects decoded by the json library have unique keys, for which
first-match and last-match lookup agree. -/
def lookupField (fields : List (String × Json)) (k : String) : Option Json :=
  match fields with
  | [] => none
  | (k2, v) :: rest => if k2 = k then some v else lookupField rest k

/-- Pydantic validation of a `str` field: the JSON value must be a string
(pydantic v2 does not coerce numbers or booleans to `str`). -/
def asStr : Json → Option String
  | .str s => some s
  | _ => none

/-- `class Audience(BaseModel): age: str; attributes: List[str]`. -/
structure Audience where
  age : String
  attributes : List String
deriving DecidableEq, Repr

/-- `class Idea(BaseModel): title: str; detail: str; style: str; procedure: str`. -/
structure Idea where
  title : String
  detail : String
  style : String
  procedure : String
deriving DecidableEq, Repr

/-- `class Ideas(BaseModel): ideas: List[Idea]`. -/
structure Ideas where
  ideas : List Idea
deriving DecidableEq, Repr

/-- Pydantic validation of one `Idea` from a JSON value: the value must be
an object carrying the four required fields as strings; unknown extra
fields are ignored (the pydantic v2 default `extra=ignore`). -/
def validateIdea (j : Json) : Option Idea :=
  match j with
  | .obj fields => do
    let t ← (lookupField fields "title").bind asStr
    let d ← (lookupField fields "detail").bind asStr
    let s ← (lookupField fields "style").bind asStr
    let p ← (lookupField fields "procedure").bind asStr
    pure ⟨t, d, s, p⟩
  | _ => none

/-- Pydantic validation of `List[Idea]`: every element must validate;
a single failing element fails the whole list. -/
def validateIdeaList : List Json → Option (List Idea)
  | [] => some []
  | j :: js =>
    match validateIdea j, validateIdeaList js with
    | some i, some is => some (i :: is)
    | _, _ => none

/-- Pydantic validation of `Ideas` from a JSON value: an object with an
`ideas` field holding an array of valid ideas; unknown extra fields at the
top level are ignored. -/
def validateIdeas (j : Json) : Option Ideas :=
  match j with
  | .obj fields =>
    match lookupField fields "ideas" with
    | some (.arr items) => (validateIdeaList items).map Ideas.mk
    | _ => none
  | _ => none

/-- `Ideas.model_validate_json(response)`: parse the response text with
the json library, then validate the resulting JSON value against the
`Ideas` schema.  Any failure of either step is a validation failure. -/
def model_validate_json (parse : String → Option Json) (response : String) : Option Ideas :=
  (parse response).bind validateIdeas

/-- A transport-level failure of a chat-completion call (network or API
error raised by `client.create`). -/
structure TransportErr where
  msg : String
deriving DecidableEq, Repr

/-- The chat-completion service (`client = OpenAIWrapper(...)`), modelled
as an opaque capability: given the index of the call within the pipeline
invocation (the calls are strictly sequential) and the content of the
single user message, it returns the response text
(`.choices[0].message.content`) or fails with a transport error. -/
structure Client where
  complete : Nat → String → Except TransportErr String

/-- Python repr of a list of strings, as interpolated by the f-string. -/
def pyStrList (xs : List String) : String :=
  "[" ++ String.intercalate ", " (xs.map fun s => "\x27" ++ s ++ "\x27") ++ "]"

/-- Python repr of the `kwargs` dict holding the audience data, as
interpolated verbatim into the brainstorm prompt. -/
def audienceKwargs (a : Audience) : String :=
  "\x7b\x27age\x27: \x27" ++ a.age ++ "\x27, \x27attributes\x27: " ++ pyStrList a.attributes ++ "\x7d"

/-- The single user message of the brainstorm call. -/
def brainstormPrompt (a : Audience) : String :=
  "You are a master visual artist. Brainstorm a diverse set of ideas that emotionally resonate with the audience. Give each idea a title, specify the artistic style, a highly detailed description, and a procedure to produce it.\n\x7b\"audience\":" ++ audienceKwargs a ++ "\x7d"

/-- The rendering of `Ideas.model_json_schema()` interpolated into the
extractor prompt.  The schema dict is generated by the pydantic library;
its exact text never influences the control flow, so it is kept as an
abbreviated constant here. -/
def ideasJsonSchema : String :=
  "\x7b\x27$defs\x27: \x7b\x27Idea\x27: ...\x7d, \x27properties\x27: \x7b\x27ideas\x27: ...\x7d, \x27required\x27: [\x27ideas\x27], \x27title\x27: \x27Ideas\x27, \x27type\x27: \x27object\x27\x7d"

/-- The single user message of each extractor call.  It depends only on
the fixed schema and the brainstorm conversation, so it is identical
across retry attempts. -/
def extractPrompt (conversation : String) : String :=
  "You will return a JSON object according this json schema: " ++ ideasJsonSchema ++ " \n\n Based on the following conversation:" ++ conversation ++ " \n\nReturn the JSON object only."

/-- The outcome of `brainstorm_ideas` once it terminates. -/
inductive BrainstormErr where
  | transport (e : TransportErr)
  | validationExhausted
deriving DecidableEq, Repr

/-- The `while num_try < 3` loop of `brainstorm_ideas`, embedded as a
fuel-indexed step function.  One unit of fuel is one loop iteration.  A
first component of `none` means the loop is still running after the given
number of iterations; `some r` means it terminated with outcome `r`.  The
second component counts the extractor calls issued.  `numTry` is the
value of `num_try`: the source initializes it to 0 and never updates it,
so the recursive call passes it unchanged, and `callIdx` is the index of
the next chat-completion call. -/
def extractLoop (parse : String → Option Json) (client : Client) (prompt : String)
    (numTry : Nat) (callIdx : Nat) : Nat → Option (Except BrainstormErr Ideas) × Nat
  | 0 => (none, 0)
  | fuel + 1 =>
    if numTry < 3 then
      match client.complete callIdx prompt with
      | .error e => (some (.error (.transport e)), 1)
      | .ok response =>
        match model_validate_json parse response with
        | some v => (some (.ok v), 1)
        | none =>
          ((extractLoop parse client prompt numTry (callIdx + 1) fuel).1,
           (extractLoop parse client prompt numTry (callIdx + 1) fuel).2 + 1)
    else (some (.error .validationExhausted), 0)

/-- `brainstorm_ideas(**kwargs)`.  The caller passes the dump of a
well-typed `Audience`, so `Audience.model_validate(kwargs)` succeeds and
is the identity here.  Call 0 is the brainstorm call (its transport error
propagates with no extractor call); calls 1, 2, ... are the extractor
calls of the retry loop.  The result carries, in order: the outcome
(`none` while the loop is still running after `fuel` iterations), the
number of extractor calls issued, and the state of the audience argument
after the call (the source never assigns to it). -/
def brainstorm_ideas (parse : String → Option Json) (client : Client)
    (kwargs : Audience) (fuel : Nat) :
    Option (Except BrainstormErr Ideas) × Nat × Audience :=
  match client.complete 0 (brainstormPrompt kwargs) with
  | .error e => (some (.error (.transport e)), 0, kwargs)
  | .ok conversation =>
    ((extractLoop parse client (extractPrompt conversation) 0 1 fuel).1,
     (extractLoop parse client (extractPrompt conversation) 0 1 fuel).2,
     kwargs)

/-! ### Concrete mock transports used to exercise the pipeline -/

/-- The response text of Scenario B: valid JSON that fails schema
validation because `ideas` is a string, not a list. -/
def notAListText : String := "\x7b\"ideas\": \"not-a-list\"\x7d"

/-- The JSON value the json library produces from `notAListText`. -/
def notAListJson : Json := .obj [("ideas", .str "not-a-list")]

/-- A json library behavior that recognizes exactly the Scenario B
response text; everything else is not valid JSON. -/
def parseB : String → Option Json :=
  fun s => if s = notAListText then some notAListJson else none

/-- Scenario B mock transport: the brainstorm call (index 0) returns
prose, and every extractor call returns `notAListText`. -/
def clientB : Client :=
  ⟨fun k _ => if k = 0 then .ok "some brainstorm prose" else .ok notAListText⟩

/-- The audience used by the notebook test cell (truncated to two
attributes, as in Scenario A of the spec). -/
def audienceA : Audience := ⟨"18-22", ["energetic", "undergraduate"]⟩

/-! ### Helper lemmas -/

/-- The Scenario B response fails `Ideas` validation. -/
lemma validateIdeas_notAListJson : validateIdeas notAListJson = none := by
  simp [validateIdeas, notAListJson, lookupField]

/-- On the Scenario B transport, the retry loop never terminates: since
the source never increments `num_try`, the guard `num_try < 3` always
holds, every iteration issues one more extractor call, and the loop is
still running after any number of iterations. -/
lemma extractLoopB_runs_forever (prompt : String) :
    ∀ (fuel callIdx : Nat), 1 ≤ callIdx →
      extractLoop parseB clientB prompt 0 callIdx fuel = (none, fuel) := by
  intro fuel
  induction fuel with
  | zero => intro callIdx _; rfl
  | succ n ih =>
    intro callIdx hcall
    have hk : callIdx ≠ 0 := Nat.pos_iff_ne_zero.mp hcall
    have hresp : clientB.complete callIdx prompt = .ok notAListText := by
      simp [clientB, hk]
    have hval : model_validate_json parseB notAListText = none := by
      simp [model_validate_json, parseB, validateIdeas_notAListJson]
    have hrec := ih (callIdx + 1) (Nat.le_succ_of_le hcall)
    simp [extractLoop, hresp, hval, hrec]

/-- On the Scenario B transport, the brainstorm call succeeds and the
whole pipeline reduces to the non-terminating loop. -/
lemma brainstormB_eq (fuel : Nat) :
    brainstorm_ideas parseB clientB audienceA fuel = (none, fuel, audienceA) := by
  have h0 : clientB.complete 0 (brainstormPrompt audienceA) = .ok "some brainstorm prose" := by
    simp [clientB]
  simp [brainstorm_ideas, h0,
    extractLoopB_runs_forever (extractPrompt "some brainstorm prose") fuel 1 (Nat.le_refl 1)]

/-! ### Canonical JSON encodings of schema-conformant responses -/

/-- The JSON object encoding one idea with the four required fields. -/
def ideaObj (t d s p : String) : Json :=
  .obj [("title", .str t), ("detail", .str d), ("style", .str s), ("procedure", .str p)]

/-- The `Idea` built from a quadruple of field values. -/
def mkIdea (q : String × String × String × String) : Idea :=
  ⟨q.1, q.2.1, q.2.2.1, q.2.2.2⟩

/-- The JSON object encoding a collection of ideas. -/
def ideasObj (quads : List (String × String × String × String)) : Json :=
  .obj [("ideas", .arr (quads.map fun q => ideaObj q.1 q.2.1 q.2.2.1 q.2.2.2))]

lemma validateIdea_ideaObj (t d s p : String) :
    validateIdea (ideaObj t d s p) = some ⟨t, d, s, p⟩ := by
  simp [validateIdea, ideaObj, lookupField, asStr]

lemma validateIdeaList_map (quads : List (String × String × String × String)) :
    validateIdeaList (quads.map fun q => ideaObj q.1 q.2.1 q.2.2.1 q.2.2.2)
      = some (quads.map mkIdea) := by
  induction quads with
  | nil => rfl
  | cons q qs ih => simp [validateIdeaList, validateIdea_ideaObj, ih, mkIdea]

lemma validateIdeas_ideasObj (quads : List (String × String × String × String)) :
    validateIdeas (ideasObj quads) = some ⟨quads.map mkIdea⟩ := by
  simp [validateIdeas, ideasObj, lookupField, validateIdeaList_map]

/-- One loop iteration whose response validates returns that value with
one extractor call issued. -/
lemma extractLoop_first_valid (parse : String → Option Json) (client : Client)
    (prompt : String) (numTry callIdx fuel : Nat) (r : String) (v : Ideas)
    (hn : numTry < 3)
    (hr : client.complete callIdx prompt = .ok r)
    (hv : model_validate_json parse r = some v) :
    extractLoop parse client prompt numTry callIdx (fuel + 1) = (some (.ok v), 1) := by
  simp [extractLoop, hn, hr, hv]

/-- If the brainstorm call succeeds and the first extractor response
validates, the pipeline returns that value after exactly one extractor
call, for any fuel of at least one iteration. -/
lemma brainstorm_first_valid (parse : String → Option Json) (client : Client)
    (kw : Audience) (conv r : String) (v : Ideas) (fuel : Nat)
    (h0 : client.complete 0 (brainstormPrompt kw) = .ok conv)
    (h1 : client.complete 1 (extractPrompt conv) = .ok r)
    (hv : model_validate_json parse r = some v)
    (hfuel : 1 ≤ fuel) :
    brainstorm_ideas parse client kw fuel = (some (.ok v), 1, kw) := by
  obtain ⟨m, rfl⟩ : ∃ m, fuel = m + 1 := ⟨fuel - 1, by omega⟩
  simp [brainstorm_ideas, h0,
    extractLoop_first_valid parse client (extractPrompt conv) 0 1 m r v (by norm_num) h1 hv]

/-! ### Scenario A mocks: a schema-valid response on the first attempt -/

/-- The Scenario A response text. -/
def tdspText : String :=
  "\x7b\"ideas\": [\x7b\"title\": \"T\", \"detail\": \"D\", \"style\": \"S\", \"procedure\": \"P\"\x7d]\x7d"

/-- The JSON value the json library produces from `tdspText`. -/
def tdspJson : Json := ideasObj [("T", "D", "S", "P")]

/-- A json library behavior recognizing exactly the Scenario A text. -/
def parseA : String → Option Json :=
  fun s => if s = tdspText then some tdspJson else none

/-- Scenario A mock transport: prose on the brainstorm call, the valid
response on every extractor call. -/
def clientA : Client :=
  ⟨fun k _ => if k = 0 then .ok "arbitrary prose" else .ok tdspText⟩

/-- The expected Scenario A result. -/
def ideasA : Ideas := ⟨[⟨"T", "D", "S", "P"⟩]⟩

/-- Mock transport for the early-success scenario: the first extractor
response (call 1) is not JSON, the second (call 2) is the valid one. -/
def clientRetry : Client :=
  ⟨fun k _ =>
    if k = 0 then .ok "arbitrary prose"
    else if k = 1 then .ok "not json at all" else .ok tdspText⟩

/-! ### Claim theorems -/

/-- C1: the claim states that when every extractor response fails
validation, `brainstorm_ideas` makes exactly 3 extraction attempts and
then raises the exhaustion error.  The code violates this: `num_try` is
never incremented, so on the Scenario B transport (every extractor
response is the valid-JSON-but-invalid-schema text
`{"ideas": "not-a-list"}`) the loop is still running after any number of
iterations, having issued one extractor call per iteration, and the
exhaustion error is never raised. -/
theorem c1_exhaustion_never_raised (fuel : Nat) :
    (brainstorm_ideas parseB clientB audienceA fuel).1 = none ∧
      (brainstorm_ideas parseB clientB audienceA fuel).2.1 = fuel := by
  rw [brainstormB_eq fuel]
  exact ⟨rfl, rfl⟩

/-- C2: the claim states that the retry loop always terminates within at
most 3 extraction attempts.  The code violates this: on the Scenario B
transport the loop has already issued 10 extractor calls after 10
iterations and is still running, so it neither terminates nor respects
the bound of 3. -/
theorem c2_attempts_exceed_bound :
    (brainstorm_ideas parseB clientB audienceA 10).1 = none ∧
      (brainstorm_ideas parseB clientB audienceA 10).2.1 = 10 ∧ 3 < 10 := by
  rw [brainstormB_eq 10]
  exact ⟨rfl, rfl, by norm_num⟩

/-- C5: the audience argument is unchanged after any call to
`brainstorm_ideas`: the post-call state of the audience returned by the
embedding equals the input, for every transport behavior, json library
behavior and fuel. -/
theorem c5_audience_unchanged (parse : String → Option Json) (client : Client)
    (kwargs : Audience) (fuel : Nat) :
    (brainstorm_ideas parse client kwargs fuel).2.2 = kwargs := by
  unfold brainstorm_ideas
  cases client.complete 0 (brainstormPrompt kwargs) <;> rfl

/-- C8: if the brainstorm call (call index 0) fails at the transport
level, `brainstorm_ideas` surfaces the transport error immediately, with
zero extractor calls issued, for every fuel (even 0: the loop is never
entered). -/
theorem c8_transport_error_propagates (parse : String → Option Json) (client : Client)
    (kwargs : Audience) (fuel : Nat) (e : TransportErr)
    (h : client.complete 0 (brainstormPrompt kwargs) = .error e) :
    brainstorm_ideas parse client kwargs fuel
      = (some (.error (.transport e)), 0, kwargs) := by
  simp [brainstorm_ideas, h]

/-- C3: if the first extractor response fails validation and the second
parses and validates, `brainstorm_ideas` returns the validated value
after exactly 2 extractor calls and never issues a third. -/
theorem c3_early_success (parse : String → Option Json) (client : Client)
    (kw : Audience) (conv r1 r2 : String) (c : Ideas) (fuel : Nat)
    (h0 : client.complete 0 (brainstormPrompt kw) = .ok conv)
    (h1 : client.complete 1 (extractPrompt conv) = .ok r1)
    (hv1 : model_validate_json parse r1 = none)
    (h2 : client.complete 2 (extractPrompt conv) = .ok r2)
    (hv2 : model_validate_json parse r2 = some c)
    (hfuel : 2 ≤ fuel) :
    brainstorm_ideas parse client kw fuel = (some (.ok c), 2, kw) := by
  obtain ⟨m, rfl⟩ : ∃ m, fuel = m + 1 + 1 := ⟨fuel - 2, by omega⟩
  simp [brainstorm_ideas, h0, extractLoop, h1, hv1, h2, hv2]

/-- Witness for C3 on concrete mocks: invalid on attempt 1, the Scenario
A response on attempt 2. -/
theorem c3_early_success_witness :
    brainstorm_ideas parseA clientRetry audienceA 3 = (some (.ok ideasA), 2, audienceA) :=
  c3_early_success parseA clientRetry audienceA "arbitrary prose" "not json at all"
    tdspText ideasA 3
    (by simp [clientRetry])
    (by simp [clientRetry])
    (by simp [model_validate_json, parseA, tdspText])
    (by simp [clientRetry])
    (by simp [model_validate_json, parseA, tdspJson, validateIdeas_ideasObj, ideasA, mkIdea])
    (by norm_num)

/-- C4: a first extractor response that parses as JSON and validates
against the schema is returned after exactly one extractor call, and the
validation of a canonical schema-conformant JSON object yields exactly
the field values of the JSON structure (no coercion). -/
theorem c4_schema_valid_fields_exact (parse : String → Option Json) (client : Client)
    (kw : Audience) (conv r : String) (c : Ideas) (fuel : Nat)
    (h0 : client.complete 0 (brainstormPrompt kw) = .ok conv)
    (h1 : client.complete 1 (extractPrompt conv) = .ok r)
    (hv : model_validate_json parse r = some c)
    (hfuel : 1 ≤ fuel) :
    brainstorm_ideas parse client kw fuel = (some (.ok c), 1, kw) ∧
      ∀ quads, validateIdeas (ideasObj quads) = some ⟨quads.map mkIdea⟩ :=
  ⟨brainstorm_first_valid parse client kw conv r c fuel h0 h1 hv hfuel,
   fun quads => validateIdeas_ideasObj quads⟩

/-- Witness for C4: Scenario A, the single-idea response with fields
T, D, S, P on the first try. -/
theorem c4_schema_valid_fields_exact_witness :
    brainstorm_ideas parseA clientA audienceA 3 = (some (.ok ideasA), 1, audienceA) ∧
      ∀ quads, validateIdeas (ideasObj quads) = some ⟨quads.map mkIdea⟩ :=
  c4_schema_valid_fields_exact parseA clientA audienceA "arbitrary prose" tdspText ideasA 3
    (by simp [clientA])
    (by simp [clientA])
    (by simp [model_validate_json, parseA, tdspJson, validateIdeas_ideasObj, ideasA, mkIdea])
    (by norm_num)

/-! ### Empty-string fields (C7) -/

/-- A response whose four fields are present as strings but all empty. -/
def emptyText : String :=
  "\x7b\"ideas\": [\x7b\"title\": \"\", \"detail\": \"\", \"style\": \"\", \"procedure\": \"\"\x7d]\x7d"

/-- The JSON value the json library produces from `emptyText`. -/
def emptyJson : Json := ideasObj [("", "", "", "")]

/-- A json library behavior recognizing exactly the empty-fields text. -/
def parseEmpty : String → Option Json :=
  fun s => if s = emptyText then some emptyJson else none

/-- Mock transport returning the empty-fields response on every
extractor call. -/
def clientEmpty : Client :=
  ⟨fun k _ => if k = 0 then .ok "prose text" else .ok emptyText⟩

/-- C7 counterexample: the claim says a response whose fields are
present as strings but empty must be rejected as a validation failure.
The code accepts it: pydantic `str` fields impose no non-emptiness
check, so the all-empty response is returned as a success on the first
attempt. -/
theorem c7_counterexample_empty_accepted :
    brainstorm_ideas parseEmpty clientEmpty audienceA 3
      = (some (.ok ⟨[⟨"", "", "", ""⟩]⟩), 1, audienceA) :=
  brainstorm_first_valid parseEmpty clientEmpty audienceA "prose text" emptyText
    ⟨[⟨"", "", "", ""⟩]⟩ 3
    (by simp [clientEmpty])
    (by simp [clientEmpty])
    (by simp [model_validate_json, parseEmpty, emptyJson, validateIdeas_ideasObj, mkIdea])
    (by norm_num)

/-- C7 as amended: in a successfully returned collection all four fields
are present as strings, but emptiness is not checked — a response whose
fields are arbitrary strings, empty included, validates and is returned
with the field values taken verbatim. -/
theorem c7_string_fields_no_emptiness_check (parse : String → Option Json)
    (client : Client) (kw : Audience) (conv r : String) (t d s p : String) (fuel : Nat)
    (h0 : client.complete 0 (brainstormPrompt kw) = .ok conv)
    (h1 : client.complete 1 (extractPrompt conv) = .ok r)
    (hp : parse r = some (ideasObj [(t, d, s, p)]))
    (hfuel : 1 ≤ fuel) :
    brainstorm_ideas parse client kw fuel = (some (.ok ⟨[⟨t, d, s, p⟩]⟩), 1, kw) :=
  brainstorm_first_valid parse client kw conv r ⟨[⟨t, d, s, p⟩]⟩ fuel h0 h1
    (by simp [model_validate_json, hp, validateIdeas_ideasObj, mkIdea]) hfuel

/-- Witness for the amended C7, at the all-empty response with a larger
fuel. -/
theorem c7_string_fields_no_emptiness_check_witness :
    brainstorm_ideas parseEmpty clientEmpty audienceA 5
      = (some (.ok ⟨[⟨"", "", "", ""⟩]⟩), 1, audienceA) :=
  c7_string_fields_no_emptiness_check parseEmpty clientEmpty audienceA "prose text"
    emptyText "" "" "" "" 5
    (by simp [clientEmpty])
    (by simp [clientEmpty])
    (by simp [parseEmpty, emptyJson])
    (by norm_num)

/-! ### Extra unrecognized fields (C10) -/

/-- C10: a response carrying all required fields plus extra unrecognized
fields — inside an idea and at the top level — is accepted on that
attempt with one extractor call, and the returned collection carries
only the four declared fields (the extras are dropped). -/
theorem c10_extra_fields_ignored (parse : String → Option Json) (client : Client)
    (kw : Audience) (conv r : String) (t d s p : String)
    (extraIdea extraTop : List (String × Json)) (fuel : Nat)
    (_hIdea : ∀ q ∈ extraIdea,
      q.1 ≠ "title" ∧ q.1 ≠ "detail" ∧ q.1 ≠ "style" ∧ q.1 ≠ "procedure")
    (_hTop : ∀ q ∈ extraTop, q.1 ≠ "ideas")
    (h0 : client.complete 0 (brainstormPrompt kw) = .ok conv)
    (h1 : client.complete 1 (extractPrompt conv) = .ok r)
    (hp : parse r = some (Json.obj
      (("ideas", Json.arr [Json.obj
          ([("title", .str t), ("detail", .str d), ("style", .str s),
            ("procedure", .str p)] ++ extraIdea)]) :: extraTop)))
    (hfuel : 1 ≤ fuel) :
    brainstorm_ideas parse client kw fuel = (some (.ok ⟨[⟨t, d, s, p⟩]⟩), 1, kw) := by
  apply brainstorm_first_valid parse client kw conv r _ fuel h0 h1 _ hfuel
  rw [model_validate_json, hp]
  simp [validateIdeas, lookupField, validateIdeaList, validateIdea, asStr]

/-- The extra-fields response text. -/
def extraText : String := "response with extra fields"

/-- The extra-fields JSON value: the required structure plus an extra
field inside the idea and an extra field at the top level. -/
def extraJson : Json :=
  Json.obj
    [("ideas", Json.arr [Json.obj
        [("title", .str "T"), ("detail", .str "D"), ("style", .str "S"),
         ("procedure", .str "P"), ("mood", .str "serene")]]),
     ("version", .num 1)]

/-- A json library behavior recognizing exactly the extra-fields text. -/
def parseExtra : String → Option Json :=
  fun s => if s = extraText then some extraJson else none

/-- Mock transport returning the extra-fields response on every
extractor call. -/
def clientExtra : Client :=
  ⟨fun k _ => if k = 0 then .ok "prose text" else .ok extraText⟩

/-- Witness for C10 at the concrete extra-fields response. -/
theorem c10_extra_fields_ignored_witness :
    brainstorm_ideas parseExtra clientExtra audienceA 3
      = (some (.ok ⟨[⟨"T", "D", "S", "P"⟩]⟩), 1, audienceA) :=
  c10_extra_fields_ignored parseExtra clientExtra audienceA "prose text" extraText
    "T" "D" "S" "P" [("mood", .str "serene")] [("version", .num 1)] 3
    (by simp)
    (by simp)
    (by simp [clientExtra])
    (by simp [clientExtra])
    (by simp [parseExtra, extraJson])
    (by norm_num)

/-- A mock transport whose brainstorm call raises a connection error. -/
def clientConnFail : Client := ⟨fun _ _ => .error ⟨"connection error"⟩⟩

/-- Witness for C8 at a concrete failing transport. -/
theorem c8_transport_error_propagates_witness :
    brainstorm_ideas parseB clientConnFail audienceA 3
      = (some (.error (.transport ⟨"connection error"⟩)), 0, audienceA) :=
  c8_transport_error_propagates parseB clientConnFail audienceA 3
    ⟨"connection error"⟩ rfl

/-! ### Structural lemmas for the all-or-nothing invariant (C6) -/

/-- A validated `Idea` certifies that its JSON value was an object with
all four required fields present as strings equal to the field values. -/
lemma validateIdea_strings (j : Json) (idea : Idea) (h : validateIdea j = some idea) :
    ∃ fields, j = Json.obj fields ∧
      (lookupField fields "title").bind asStr = some idea.title ∧
      (lookupField fields "detail").bind asStr = some idea.detail ∧
      (lookupField fields "style").bind asStr = some idea.style ∧
      (lookupField fields "procedure").bind asStr = some idea.procedure := by
  cases j with
  | obj fields =>
    simp only [validateIdea, Option.pure_def, Option.bind_eq_bind, Option.bind_eq_some,
      Option.some.injEq] at h
    obtain ⟨t, ht, d, hd, s, hs, p, hp, hidea⟩ := h
    refine ⟨fields, rfl, ?_, ?_, ?_, ?_⟩ <;> rw [← hidea] <;>
      simp only [Option.bind_eq_some] <;> assumption
  | null => simp [validateIdea] at h
  | bool b => simp [validateIdea] at h
  | num n => simp [validateIdea] at h
  | str s => simp [validateIdea] at h
  | arr xs => simp [validateIdea] at h

/-- A validated idea list validates elementwise. -/
lemma validateIdeaList_get (items : List Json) :
    ∀ (ideas2 : List Idea), validateIdeaList items = some ideas2 →
      items.length = ideas2.length ∧
      ∀ (i : Nat) (h1 : i < items.length) (h2 : i < ideas2.length),
        validateIdea (items.get ⟨i, h1⟩) = some (ideas2.get ⟨i, h2⟩) := by
  induction items with
  | nil =>
    intro ideas2 h
    simp only [validateIdeaList, Option.some.injEq] at h
    subst h
    exact ⟨rfl, fun i h1 _ => absurd h1 (by simp)⟩
  | cons j js ih =>
    intro ideas2 h
    unfold validateIdeaList at h
    cases hj : validateIdea j <;> rw [hj] at h
    · simp at h
    · cases hjs : validateIdeaList js <;> rw [hjs] at h
      · simp at h
      · simp only [Option.some.injEq] at h
        subst h
        obtain ⟨hlen, hget⟩ := ih _ hjs
        refine ⟨by simp [hlen], ?_⟩
        intro i h1 h2
        cases i with
        | zero => simpa using hj
        | succ k => simpa using hget k (by simpa using h1) (by simpa using h2)

/-- One invalid element fails the validation of the whole list: there is
no partial result. -/
lemma validateIdeaList_none_of_mem (items : List Json) (j : Json)
    (hmem : j ∈ items) (hnone : validateIdea j = none) :
    validateIdeaList items = none := by
  induction items with
  | nil => simp at hmem
  | cons k ks ih =>
    rcases List.mem_cons.mp hmem with h | h
    · subst h; simp [validateIdeaList, hnone]
    · cases hk : validateIdea k <;> simp [validateIdeaList, hk, ih h]

/-- A validated `Ideas` certifies the shape of its JSON value. -/
lemma validateIdeas_inv (j : Json) (c : Ideas) (h : validateIdeas j = some c) :
    ∃ fields items, j = Json.obj fields ∧
      lookupField fields "ideas" = some (.arr items) ∧
      validateIdeaList items = some c.ideas := by
  cases j with
  | obj fields =>
    simp only [validateIdeas] at h
    split at h
    · next items heq =>
      obtain ⟨a, ha, hmk⟩ := Option.map_eq_some'.mp h
      exact ⟨fields, items, rfl, heq, by rw [ha, ← hmk]⟩
    · simp at h
  | null => simp [validateIdeas] at h
  | bool b => simp [validateIdeas] at h
  | num n => simp [validateIdeas] at h
  | str s => simp [validateIdeas] at h
  | arr xs => simp [validateIdeas] at h

/-- A terminated successful run of the retry loop produced its value by
validating some JSON value. -/
lemma extractLoop_ok_exists (parse : String → Option Json) (client : Client)
    (prompt : String) :
    ∀ (fuel numTry callIdx : Nat) (c : Ideas),
      (extractLoop parse client prompt numTry callIdx fuel).1 = some (.ok c) →
      ∃ j, validateIdeas j = some c := by
  intro fuel
  induction fuel with
  | zero => intro numTry callIdx c h; simp [extractLoop] at h
  | succ m ih =>
    intro numTry callIdx c h
    by_cases hn : numTry < 3
    · cases hr : client.complete callIdx prompt with
      | error e => simp [extractLoop, hn, hr] at h
      | ok r =>
        cases hv : model_validate_json parse r with
        | some v =>
          simp only [extractLoop, hn, if_true, hr, hv] at h
          simp only [Option.some.injEq, Except.ok.injEq] at h
          rw [model_validate_json] at hv
          obtain ⟨j, _, hj⟩ := Option.bind_eq_some.mp hv
          exact ⟨j, h ▸ hj⟩
        | none =>
          simp only [extractLoop, hn, if_true, hr, hv] at h
          exact ih numTry (callIdx + 1) c h
    · simp [extractLoop, hn] at h

/-- C6: every idea of a successfully returned collection was validated
from a JSON object carrying all four fields as strings matching the
returned field values, and validation is all-or-nothing — one invalid
element fails the entire list, so no partially valid collection is ever
produced. -/
theorem c6_schema_invariant_all_or_nothing (parse : String → Option Json)
    (client : Client) (kw : Audience) (fuel n : Nat) (c : Ideas) (a : Audience)
    (h : brainstorm_ideas parse client kw fuel = (some (.ok c), n, a)) :
    (∃ items : List Json, items.length = c.ideas.length ∧
      ∀ (i : Nat) (h1 : i < items.length) (h2 : i < c.ideas.length),
        ∃ fields, items.get ⟨i, h1⟩ = Json.obj fields ∧
          (lookupField fields "title").bind asStr = some (c.ideas.get ⟨i, h2⟩).title ∧
          (lookupField fields "detail").bind asStr = some (c.ideas.get ⟨i, h2⟩).detail ∧
          (lookupField fields "style").bind asStr = some (c.ideas.get ⟨i, h2⟩).style ∧
          (lookupField fields "procedure").bind asStr = some (c.ideas.get ⟨i, h2⟩).procedure)
    ∧ (∀ (items : List Json) (jbad : Json), jbad ∈ items → validateIdea jbad = none →
        validateIdeaList items = none) := by
  constructor
  · have hloop : ∃ j, validateIdeas j = some c := by
      cases h0 : client.complete 0 (brainstormPrompt kw) with
      | error e =>
        rw [brainstorm_ideas, h0] at h
        simp at h
      | ok conv =>
        rw [brainstorm_ideas, h0] at h
        have h1 : (extractLoop parse client (extractPrompt conv) 0 1 fuel).1
            = some (.ok c) := congrArg (fun x => x.1) h
        exact extractLoop_ok_exists parse client (extractPrompt conv) fuel 0 1 c h1
    obtain ⟨j, hj⟩ := hloop
    obtain ⟨fields, items, _, _, hlist⟩ := validateIdeas_inv j c hj
    obtain ⟨hlen, hget⟩ := validateIdeaList_get items c.ideas hlist
    refine ⟨items, hlen, ?_⟩
    intro i h1 h2
    exact validateIdea_strings _ _ (hget i h1 h2)
  · exact fun items jbad hmem hnone => validateIdeaList_none_of_mem items jbad hmem hnone

/-- Witness for C6: Scenario A run through the pipeline. -/
theorem c6_schema_invariant_all_or_nothing_witness :
    (∃ items : List Json, items.length = ideasA.ideas.length ∧
      ∀ (i : Nat) (h1 : i < items.length) (h2 : i < ideasA.ideas.length),
        ∃ fields, items.get ⟨i, h1⟩ = Json.obj fields ∧
          (lookupField fields "title").bind asStr = some (ideasA.ideas.get ⟨i, h2⟩).title ∧
          (lookupField fields "detail").bind asStr = some (ideasA.ideas.get ⟨i, h2⟩).detail ∧
          (lookupField fields "style").bind asStr = some (ideasA.ideas.get ⟨i, h2⟩).style ∧
          (lookupField fields "procedure").bind asStr
            = some (ideasA.ideas.get ⟨i, h2⟩).procedure)
    ∧ (∀ (items : List Json) (jbad : Json), jbad ∈ items → validateIdea jbad = none →
        validateIdeaList items = none) :=
  c6_schema_invariant_all_or_nothing parseA clientA audienceA 3 1 ideasA audienceA
    (brainstorm_first_valid parseA clientA audienceA "arbitrary prose" tdspText ideasA 3
      (by simp [clientA])
      (by simp [clientA])
      (by simp [model_validate_json, parseA, tdspJson, validateIdeas_ideasObj, ideasA, mkIdea])
      (by norm_num))

/-! ### Silent absorption of per-attempt failures (C9) -/

/-- C9: an extractor response that fails parsing or validation is
silently absorbed — the loop outcome is exactly the outcome of the loop
restarted at the next attempt (the failing response does not appear in
the result), one more extractor call is counted, and the only error
outcomes the pipeline can ever surface are a transport error or the
exhaustion error (there is no per-attempt validation error outcome). -/
theorem c9_attempt_failures_silently_absorbed (parse : String → Option Json)
    (client : Client) (prompt : String) (numTry callIdx fuel : Nat) (r : String)
    (hn : numTry < 3)
    (hr : client.complete callIdx prompt = .ok r)
    (hv : model_validate_json parse r = none) :
    extractLoop parse client prompt numTry callIdx (fuel + 1)
      = ((extractLoop parse client prompt numTry (callIdx + 1) fuel).1,
         (extractLoop parse client prompt numTry (callIdx + 1) fuel).2 + 1)
    ∧ ∀ (kw : Audience) (fl n : Nat) (e : BrainstormErr) (a : Audience),
        brainstorm_ideas parse client kw fl = (some (.error e), n, a) →
        (∃ te, e = .transport te) ∨ e = .validationExhausted := by
  refine ⟨by simp [extractLoop, hn, hr, hv], ?_⟩
  intro kw fl n e a _
  cases e with
  | transport te => exact Or.inl ⟨te, rfl⟩
  | validationExhausted => exact Or.inr rfl

/-- Witness for C9: the invalid Scenario B response at attempt 1 is
absorbed and the loop continues with attempt 2. -/
theorem c9_attempt_failures_silently_absorbed_witness :
    extractLoop parseB clientB "prompt text" 0 1 (0 + 1)
      = ((extractLoop parseB clientB "prompt text" 0 2 0).1,
         (extractLoop parseB clientB "prompt text" 0 2 0).2 + 1)
    ∧ ∀ (kw : Audience) (fl n : Nat) (e : BrainstormErr) (a : Audience),
        brainstorm_ideas parseB clientB kw fl = (some (.error e), n, a) →
        (∃ te, e = .transport te) ∨ e = .validationExhausted :=
  c9_attempt_failures_silently_absorbed parseB clientB "prompt text" 0 1 0 notAListText
    (by norm_num)
    (by simp [clientB])
    (by simp [model_validate_json, parseB, validateIdeas_notAListJson])

end ArtPromptGen
